import Mathlib

set_option autoImplicit false

/-!
Verification of the `manipwebsocket` manipulator (package `manipwebsocket`
of aporeto-inc/manipulate): a shallow embedding of the websocket
request/response client — the response-channel registry, the `send` path,
the `connect` path, the `Subscribe` loop, the token-refresh tick and the
stop closure — together with theorems settling the specification claims.
-/

namespace Manipwebsocket

/-- An inbound response frame (`elemental.Response`), restricted to the
fields the manipulator inspects: the echoed request ID, the status code,
and the opaque error list decoded on non-success statuses. -/
structure Response where
  requestID : String
  statusCode : Int
  errors : List String
  deriving Repr, DecidableEq

/-- Typed errors surfaced by the manipulator. `cannotCommunicate` is
`manipulate.NewErrCannotCommunicate`; `decodedErrors` is the typed error
produced from a response frame's error list; `rawError` is an error
returned unwrapped (as `connect` does for `websocket.NewConfig` failures). -/
inductive ManipError where
  | cannotCommunicate (msg : String)
  | decodedErrors (errs : List String)
  | rawError (msg : String)
  deriving Repr, DecidableEq

/-- Modelled from the spec: `decodeErrors` is code of this repository not
under the provided sources; per the spec, a non-success frame's `errors`
list is decoded into a typed error, so it is modelled as the constructor
carrying the frame's error list. -/
def decodeErrors (r : Response) : ManipError :=
  .decodedErrors r.errors

/-- The response-channel registry `responsesChanRegistry`
(`map[string]chan *elemental.Response`), modelled as an association list
from request ID to an abstract channel identifier. -/
abbrev Registry := List (String × Nat)

/-- Go map assignment `m[rid] = ch`: any previous binding for `rid` is
replaced by the new one. -/
def mapAssign (reg : Registry) (rid : String) (ch : Nat) : Registry :=
  (rid, ch) :: reg.filter (fun p => p.1 != rid)

/-- `registerResponseChannel` (lines 547-555): makes a fresh channel and
stores it with `s.responsesChanRegistry[rid] = ch`. -/
def registerResponseChannel (reg : Registry) (rid : String) (ch : Nat) : Registry :=
  mapAssign reg rid ch

/-- `unregisterResponseChannel` (lines 557-562):
`delete(s.responsesChanRegistry, rid)`. -/
def unregisterResponseChannel (reg : Registry) (rid : String) : Registry :=
  reg.filter (fun p => p.1 != rid)

/-- `unregisterAllResponseChannels` (lines 564-569): resets the registry to
a fresh empty map. -/
def unregisterAllResponseChannels (_reg : Registry) : Registry :=
  []

/-- `responseChannelForID` (lines 571-577): map lookup, `none` when absent. -/
def responseChannelForID (reg : Registry) (rid : String) : Option Nat :=
  (reg.find? (fun p => p.1 == rid)).map (fun p => p.2)

/-- The externally visible steps of one `send` call, in the order the
source performs them. -/
inductive SendStep where
  | writeFrame
  | register
  | awaitDelivery
  | awaitTimeout
  | unregister
  deriving Repr, DecidableEq

/-- Environment of one `send` call: whether `s.ws` is non-nil, whether
`websocket.JSON.Send` succeeds (with the error text when it fails), and the
response delivered to the registered channel within the 30-second select
window (`none` models the timeout firing). -/
structure SendEnv where
  wsPresent : Bool
  writeOk : Bool
  writeErr : String
  delivery : Option Response
  deriving Repr, DecidableEq

/-- Outcome of one `send` call: the returned value, the ordered trace of
steps performed, and the registry state left behind. -/
structure SendOutcome where
  result : Except ManipError Response
  steps : List SendStep
  registry : Registry
  deriving Repr

/-- `send` (lines 520-545): nil-socket check, then `websocket.JSON.Send`,
then `registerResponseChannel` with a deferred `unregisterResponseChannel`,
then the select between channel delivery and `time.After(30 * time.Second)`;
on delivery the status code is checked with
`response.StatusCode < 200 || response.StatusCode > 300`. -/
def send (reg : Registry) (rid : String) (ch : Nat) (env : SendEnv) : SendOutcome :=
  if env.wsPresent = false then
    { result := .error (.cannotCommunicate "Websocket not initialized")
      steps := []
      registry := reg }
  else if env.writeOk = false then
    { result := .error (.cannotCommunicate env.writeErr)
      steps := [.writeFrame]
      registry := reg }
  else
    let reg1 := registerResponseChannel reg rid ch
    match env.delivery with
    | some response =>
      if response.statusCode < 200 ∨ response.statusCode > 300 then
        { result := .error (decodeErrors response)
          steps := [.writeFrame, .register, .awaitDelivery, .unregister]
          registry := unregisterResponseChannel reg1 rid }
      else
        { result := .ok response
          steps := [.writeFrame, .register, .awaitDelivery, .unregister]
          registry := unregisterResponseChannel reg1 rid }
    | none =>
      { result := .error (.cannotCommunicate "Request timeout")
        steps := [.writeFrame, .register, .awaitTimeout, .unregister]
        registry := unregisterResponseChannel reg1 rid }

/-- The select timeout bound in `send`: `time.After(30 * time.Second)`. -/
def sendTimeoutSeconds : Nat := 30

/-- The externally visible steps of one `connect` call, in source order. -/
inductive ConnectStep where
  | clearRegistry
  | dial
  | handshakeReceive
  deriving Repr, DecidableEq

/-- Environment of one `connect` call: whether `websocket.NewConfig`
succeeds, whether `websocket.DialConfig` succeeds, and the handshake
response read right after the dial (`none` models a receive error). -/
structure ConnectEnv where
  configOk : Bool
  configErr : String
  dialOk : Bool
  dialErr : String
  handshake : Option Response
  handshakeErr : String
  deriving Repr, DecidableEq

/-- Outcome of one `connect` call: the returned error (`none` on success),
the ordered step trace, and the registry state left behind. -/
structure ConnectOutcome where
  result : Option ManipError
  steps : List ConnectStep
  registry : Registry
  deriving Repr

/-- `connect` (lines 443-482): first `unregisterAllResponseChannels`, then
URL building and `websocket.NewConfig` (whose error is returned unwrapped),
then `websocket.DialConfig`, then one handshake receive, accepted iff
`response.StatusCode == http.StatusOK`. -/
def connect (reg : Registry) (env : ConnectEnv) : ConnectOutcome :=
  let reg0 := unregisterAllResponseChannels reg
  if env.configOk = false then
    { result := some (.rawError env.configErr)
      steps := [.clearRegistry]
      registry := reg0 }
  else if env.dialOk = false then
    { result := some (.cannotCommunicate env.dialErr)
      steps := [.clearRegistry, .dial]
      registry := reg0 }
  else
    match env.handshake with
    | none =>
      { result := some (.cannotCommunicate env.handshakeErr)
        steps := [.clearRegistry, .dial, .handshakeReceive]
        registry := reg0 }
    | some response =>
      if response.statusCode ≠ 200 then
        { result := some (decodeErrors response)
          steps := [.clearRegistry, .dial, .handshakeReceive]
          registry := reg0 }
      else
        { result := none
          steps := [.clearRegistry, .dial, .handshakeReceive]
          registry := reg0 }

/-- One scheduling event of `renewMidgardToken` (lines 591-607): a tick of
the refresh interval carrying the mint result — the token string returned by
`mclient.IssueFromCertificate` together with `minted = false` when that call
returned an error (in which case the returned token is the zero value) — or
the stop signal. -/
inductive RefreshEvent where
  | tick (token : String) (minted : Bool)
  | stop
  deriving Repr, DecidableEq

/-- `renewMidgardToken`'s effect on the stored password over a trace of
scheduling events: on a tick, the mint error is only logged, and the source
then runs `s.password = token` unconditionally; on the stop signal the loop
returns, leaving the password as it is. -/
def renewMidgardToken (password : String) : List RefreshEvent → String
  | [] => password
  | .stop :: _ => password
  | .tick token _minted :: rest => renewMidgardToken token rest

/-- The `relatedIdentities` set built at the top of `Subscribe`
(lines 350-355): the identity names of a non-nil filter, empty when
`identities == nil` (modelled as `none`). -/
def relatedIdentities (identities : Option (List String)) : List String :=
  match identities with
  | none => []
  | some is => is

/-- The delivery test of the `Subscribe` receive loop (line 433): the event
handler is invoked when the event's identity is a key of
`relatedIdentities`, or when `identities == nil`. -/
def eventDelivered (identities : Option (List String)) (eventIdentity : String) : Bool :=
  (relatedIdentities identities).contains eventIdentity || identities.isNone

/-- One outer-loop iteration of the `Subscribe` goroutine as driven from
outside: either `websocket.DialConfig` fails (retried after 5 seconds), or
it succeeds and the inner receive loop reads `events` successfully before a
receive error breaks it (the inner loop only exits on a receive error or on
stop, which truncates the trace). -/
inductive SubIteration where
  | dialFail
  | dialOk (events : List String)
  deriving Repr, DecidableEq

/-- Observable state of the `Subscribe` goroutine: the
`needsReconnectionHandlerCall` flag, the number of `recoHandler()`
invocations so far, and the `handler` invocations so far (`some id` for
`handler(event, nil)`, `none` for `handler(nil, err)`). -/
structure SubState where
  needsReconnectionHandlerCall : Bool
  recoCalls : Nat
  handlerCalls : List (Option String)
  deriving Repr, DecidableEq

/-- Initial goroutine state: `needsReconnectionHandlerCall` starts at the
zero value `false` (line 375), no handler calls yet. -/
def subInit : SubState :=
  { needsReconnectionHandlerCall := false, recoCalls := 0, handlerCalls := [] }

/-- Handler invocations of one inner receive loop pass (lines 416-436):
each event read successfully is delivered iff `eventDelivered`; the
terminating receive error invokes `handler(nil, err)`. -/
def innerLoopCalls (identities : Option (List String)) (events : List String) : List (Option String) :=
  (events.filter (fun e => eventDelivered identities e)).map some ++ [none]

/-- One outer-loop iteration (lines 377-437): a failed dial changes nothing
observable; a successful dial first fires `recoHandler` iff
`needsReconnectionHandlerCall && recoHandler != nil` (lines 411-414,
clearing the flag), then runs the inner receive loop, whose terminating
receive error invokes `handler(nil, err)` and sets
`needsReconnectionHandlerCall = true` (lines 427-431). -/
def subscribeStep (hasRecoHandler : Bool) (identities : Option (List String))
    (st : SubState) : SubIteration → SubState
  | .dialFail => st
  | .dialOk events =>
    let st1 :=
      if st.needsReconnectionHandlerCall && hasRecoHandler then
        { st with needsReconnectionHandlerCall := false, recoCalls := st.recoCalls + 1 }
      else st
    { st1 with
      handlerCalls := st1.handlerCalls ++ innerLoopCalls identities events
      needsReconnectionHandlerCall := true }

/-- The `Subscribe` goroutine run over a finite trace of outer-loop
iterations. -/
def subscribeRun (hasRecoHandler : Bool) (identities : Option (List String))
    (st : SubState) : List SubIteration → SubState
  | [] => st
  | it :: rest => subscribeRun hasRecoHandler identities (subscribeStep hasRecoHandler identities st it) rest

/-- Number of successful dials in a trace: the first one is the initial
connect, each later one is a reconnect boundary (it can only be reached
after the previous inner loop broke on a receive error). -/
def countDialOk : List SubIteration → Nat
  | [] => 0
  | .dialFail :: rest => countDialOk rest
  | .dialOk _ :: rest => countDialOk rest + 1

/-- `Subscribe`'s return statement (line 440) blocks on
`disconnectionFuncChan`, to which the goroutine sends the non-nil
`disconnectFunc` exactly once, after the first successful dial
(lines 406-409); the error position of the return is the literal `nil`.
Given the outcomes of the successive dial attempts, the value is `some`
of the returned pair (handle non-nil, returned error) once some dial
succeeds, and `none` when `Subscribe` has not yet returned (every failed
dial is retried after 5 seconds, never surfaced). -/
def subscribeReturn : List Bool → Option (Bool × Option ManipError)
  | [] => none
  | dialed :: rest => if dialed then some (true, none) else subscribeReturn rest

/-- The retry pause of the `Subscribe` dial loop and of the `listen`
reconnect loop: `time.After(5 * time.Second)`. -/
def subscribeRetrySeconds : Nat := 5

/-- State touched by the stop closure returned by
`NewWebSocketManipulatorWithRootCAAndNamespace` (lines 94-103): the
`running` flag and the request/response socket — whether `s.ws` is non-nil,
whether it was dialed as a client connection (`IsClientConn`, a static
property of how the connection was made, unaffected by `Close`), and
whether it has been closed. -/
structure ManipState where
  running : Bool
  wsPresent : Bool
  wsIsClientConn : Bool
  wsClosed : Bool
  deriving Repr, DecidableEq

/-- The stop closure (lines 94-103): under `wsLock`, if `s.ws` is non-nil
and a client connection, set `running = false` (under `runningLock`) and
call `s.ws.Close()` (closing an already-closed connection returns an
ignored error and leaves it closed); otherwise do nothing. -/
def stopClosure (st : ManipState) : ManipState :=
  if st.wsPresent && st.wsIsClientConn then
    { st with running := false, wsClosed := true }
  else st

/-- A sample response frame used to instantiate theorems on concrete
inputs. -/
def sampleResp (status : Int) : Response :=
  { requestID := "r1", statusCode := status, errors := ["e"] }

/-- A sample healthy `send` environment: socket present, write succeeds. -/
def sampleEnv (delivery : Option Response) : SendEnv :=
  { wsPresent := true, writeOk := true, writeErr := "", delivery := delivery }

/-! Helper lemmas about the registry. -/

theorem responseChannelForID_mapAssign_self (reg : Registry) (rid : String) (ch : Nat) :
    responseChannelForID (mapAssign reg rid ch) rid = some ch := by
  simp [responseChannelForID, mapAssign]

theorem responseChannelForID_unregister_self (reg : Registry) (rid : String) :
    responseChannelForID (unregisterResponseChannel reg rid) rid = none := by
  have h : (reg.filter (fun p => p.1 != rid)).find? (fun p => p.1 == rid) = none := by
    rw [List.find?_eq_none]
    intro x hx
    have hne := (List.mem_filter.mp hx).2
    simp only [bne_iff_ne, ne_eq] at hne
    simp [hne]
  simp [responseChannelForID, unregisterResponseChannel, h]

/-! Helper lemmas about the `Subscribe` goroutine run. -/

theorem subscribeRun_recoCalls_of_needs (identities : Option (List String))
    (trace : List SubIteration) :
    ∀ st : SubState, st.needsReconnectionHandlerCall = true →
      (subscribeRun true identities st trace).recoCalls = st.recoCalls + countDialOk trace := by
  induction trace with
  | nil => intro st _; simp [subscribeRun, countDialOk]
  | cons it rest ih =>
    intro st h
    cases it with
    | dialFail =>
      rw [subscribeRun, countDialOk]
      exact ih st h
    | dialOk events =>
      have hstep : subscribeStep true identities st (SubIteration.dialOk events) =
          { needsReconnectionHandlerCall := true
            recoCalls := st.recoCalls + 1
            handlerCalls := st.handlerCalls ++ innerLoopCalls identities events } := by
        simp [subscribeStep, h]
      rw [subscribeRun, hstep, ih _ rfl, countDialOk]
      dsimp only
      omega

theorem subscribeRun_recoCalls_of_not_needs (identities : Option (List String))
    (trace : List SubIteration) :
    ∀ st : SubState, st.needsReconnectionHandlerCall = false →
      (subscribeRun true identities st trace).recoCalls = st.recoCalls + (countDialOk trace - 1) := by
  induction trace with
  | nil => intro st _; simp [subscribeRun, countDialOk]
  | cons it rest ih =>
    intro st h
    cases it with
    | dialFail =>
      rw [subscribeRun, countDialOk]
      exact ih st h
    | dialOk events =>
      have hstep : subscribeStep true identities st (SubIteration.dialOk events) =
          { needsReconnectionHandlerCall := true
            recoCalls := st.recoCalls
            handlerCalls := st.handlerCalls ++ innerLoopCalls identities events } := by
        simp [subscribeStep, h]
      rw [subscribeRun, hstep, subscribeRun_recoCalls_of_needs identities rest _ rfl, countDialOk]
      dsimp only
      omega

/-! Claim theorems. -/

/-- C1: the claim states that when the identity provider fails to mint a
token, the stored password after the tick equals the password before it.
The source logs the mint error but still runs `s.password = token`
unconditionally, so a failed tick (whose minted token is the zero value
`""`) replaces the stored password `"tok0"` with `""`. -/
theorem renew_failure_overwrites_password :
    renewMidgardToken "tok0" [RefreshEvent.tick "" false] = "" ∧ "tok0" ≠ "" :=
  ⟨rfl, by decide⟩

/-- C2 counterexample: a delivered response with `statusCode = 300` makes
`send` return success, while the claim states every status outside
`[200,300)` — including exactly 300 — yields a typed error. -/
theorem send_status_300_succeeds :
    (send [] "r1" 0 (sampleEnv (some (sampleResp 300)))).result = .ok (sampleResp 300) := by
  rfl

/-- C2 amended: for every response delivered to a waiting `send`, the call
succeeds with the response iff `200 ≤ statusCode ≤ 300` (the source treats
exactly 300 as success), and otherwise returns the typed error decoded from
the frame's error list. -/
theorem send_delivery_success_iff (reg : Registry) (rid : String) (ch : Nat)
    (env : SendEnv) (resp : Response) (hws : env.wsPresent = true)
    (hw : env.writeOk = true) (hd : env.delivery = some resp) :
    ((send reg rid ch env).result = .ok resp ↔
      200 ≤ resp.statusCode ∧ resp.statusCode ≤ 300) ∧
    ((send reg rid ch env).result = .ok resp ∨
      (send reg rid ch env).result = .error (decodeErrors resp)) := by
  by_cases hs : resp.statusCode < 200 ∨ resp.statusCode > 300
  · have hres : (send reg rid ch env).result = .error (decodeErrors resp) := by
      simp [send, hws, hw, hd, hs]
    rw [hres]
    refine ⟨⟨fun h => Except.noConfusion h, fun hle => by exfalso; omega⟩, Or.inr rfl⟩
  · have hres : (send reg rid ch env).result = .ok resp := by
      simp [send, hws, hw, hd, hs]
    rw [hres]
    push_neg at hs
    exact ⟨⟨fun _ => by omega, fun _ => rfl⟩, Or.inl rfl⟩

/-- C2 witness: instantiates the amended claim on a concrete delivery with
status 250. -/
theorem send_delivery_success_iff_witness :
    ((send [] "r1" 0 (sampleEnv (some (sampleResp 250)))).result = .ok (sampleResp 250) ↔
      200 ≤ (sampleResp 250).statusCode ∧ (sampleResp 250).statusCode ≤ 300) ∧
    ((send [] "r1" 0 (sampleEnv (some (sampleResp 250)))).result = .ok (sampleResp 250) ∨
      (send [] "r1" 0 (sampleEnv (some (sampleResp 250)))).result = .error (decodeErrors (sampleResp 250))) :=
  send_delivery_success_iff [] "r1" 0 (sampleEnv (some (sampleResp 250))) (sampleResp 250) rfl rfl rfl

/-- C3 counterexample: on a concrete healthy `send` the step trace is
write, register, await, unregister — the write strictly precedes the
registration, while the claim states the waiter is registered before the
frame is written. -/
theorem send_write_precedes_register :
    (send [] "r1" 0 (sampleEnv none)).steps
        = [SendStep.writeFrame, SendStep.register, SendStep.awaitTimeout, SendStep.unregister] ∧
    ¬ (send [] "r1" 0 (sampleEnv none)).steps.indexOf SendStep.register <
        (send [] "r1" 0 (sampleEnv none)).steps.indexOf SendStep.writeFrame := by
  exact ⟨rfl, by decide⟩

/-- C3 amended: in every `send` whose socket is present and whose write
succeeds, the waiter slot is registered immediately after the frame is
written (and before `send` awaits delivery), not before the write. -/
theorem send_registers_after_write (reg : Registry) (rid : String) (ch : Nat)
    (env : SendEnv) (hws : env.wsPresent = true) (hw : env.writeOk = true) :
    (send reg rid ch env).steps.take 2 = [SendStep.writeFrame, SendStep.register] := by
  obtain ⟨wsP, wOk, wErr, del⟩ := env
  dsimp only at hws hw
  subst hws hw
  cases del with
  | none => rfl
  | some r =>
    simp only [send, reduceCtorEq, if_false]
    split <;> rfl

/-- C3 witness: instantiates the amended claim on a concrete healthy
`send`. -/
theorem send_registers_after_write_witness :
    (send [] "r1" 0 (sampleEnv none)).steps.take 2 = [SendStep.writeFrame, SendStep.register] :=
  send_registers_after_write [] "r1" 0 (sampleEnv none) rfl rfl

/-- C4 counterexample: with `"r1"` already registered (channel 7),
`registerResponseChannel` returns normally and silently replaces the
existing slot with the new channel 8, while the claim states it panics and
never silently replaces. -/
theorem register_duplicate_silently_replaces :
    responseChannelForID [("r1", 7)] "r1" = some 7 ∧
    registerResponseChannel [("r1", 7)] "r1" 8 = [("r1", 8)] ∧
    responseChannelForID (registerResponseChannel [("r1", 7)] "r1" 8) "r1" = some 8 :=
  ⟨rfl, rfl, rfl⟩

/-- C4 amended: `registerResponseChannel` is total (it never panics) and
always installs the new channel for the request ID, silently replacing any
existing slot. -/
theorem register_installs_new_channel (reg : Registry) (rid : String) (ch : Nat) :
    responseChannelForID (registerResponseChannel reg rid ch) rid = some ch :=
  responseChannelForID_mapAssign_self reg rid ch

/-- C5 counterexample: a subscription created with a non-nil empty filter
delivers nothing — the event `"thing"` is not handed to the handler — while
the claim states an empty filter delivers every received event. -/
theorem empty_filter_delivers_nothing :
    eventDelivered (some []) "thing" = false := by
  decide

/-- C5 amended: the event handler is invoked with `(event, nil)` iff the
identities filter is nil (absent) or the event's identity is a member of
the filter; a nil filter delivers every event, but a non-nil empty filter
delivers none. -/
theorem event_delivered_iff (identities : Option (List String)) (ev : String) :
    eventDelivered identities ev = true ↔
      identities = none ∨ ∃ l, identities = some l ∧ ev ∈ l := by
  cases identities with
  | none => simp [eventDelivered, relatedIdentities]
  | some l => simp [eventDelivered, relatedIdentities]

/-- C6: over every finite run of the `Subscribe` goroutine (with a recovery
handler installed), the number of `recoHandler()` invocations equals the
number of successful dials minus one — i.e. never on the initial successful
connect, exactly once on the first successful reconnection after a receive
failure (each later successful dial is reachable only after the previous
inner receive loop broke on an error), and never twice without an
intervening disconnect. -/
theorem subscribe_recovery_once_per_reconnect (identities : Option (List String))
    (trace : List SubIteration) :
    (subscribeRun true identities subInit trace).recoCalls = countDialOk trace - 1 := by
  have h := subscribeRun_recoCalls_of_not_needs identities trace subInit rfl
  simpa [subInit] using h

/-- C7: whenever the registered channel receives no delivery within the
30-second select window, `send` returns
`CannotCommunicate("Request timeout")` and the deferred unregistration
removes the waiter's entry from the registry on that exit path. -/
theorem send_timeout_unregisters (reg : Registry) (rid : String) (ch : Nat)
    (env : SendEnv) (hws : env.wsPresent = true) (hw : env.writeOk = true)
    (hd : env.delivery = none) :
    (send reg rid ch env).result = .error (.cannotCommunicate "Request timeout") ∧
    responseChannelForID (send reg rid ch env).registry rid = none ∧
    sendTimeoutSeconds = 30 := by
  obtain ⟨wsP, wOk, wErr, del⟩ := env
  dsimp only at hws hw hd
  subst hws hw hd
  exact ⟨rfl, responseChannelForID_unregister_self _ rid, rfl⟩

/-- C7 witness: instantiates the timeout path on a concrete `send` whose
registry initially holds another waiter. -/
theorem send_timeout_unregisters_witness :
    (send [("r0", 5)] "r1" 0 (sampleEnv none)).result
        = .error (.cannotCommunicate "Request timeout") ∧
    responseChannelForID (send [("r0", 5)] "r1" 0 (sampleEnv none)).registry "r1" = none ∧
    sendTimeoutSeconds = 30 :=
  send_timeout_unregisters [("r0", 5)] "r1" 0 (sampleEnv none) rfl rfl rfl

/-- C8: every call to `connect` (each reconnect attempt of the `listen`
receive loop) clears the response-channel registry as its very first step —
before the dial — and leaves the registry empty on every outcome, so no
waiter registered before the disconnect survives into the new connection. -/
theorem connect_clears_before_dial (reg : Registry) (env : ConnectEnv) :
    (connect reg env).steps.head? = some ConnectStep.clearRegistry ∧
    (connect reg env).registry = [] := by
  simp only [connect]
  repeat' split
  all_goals exact ⟨rfl, rfl⟩

/-- C9: for a constructed manipulator (socket present and dialed as a
client connection), invoking the stop closure twice is safe: the second
invocation leaves the state exactly as after the first (running flag false,
socket closed), and the closure is a total function (no panic). -/
theorem stop_twice_is_noop (st : ManipState) (hp : st.wsPresent = true)
    (hc : st.wsIsClientConn = true) :
    stopClosure (stopClosure st) = stopClosure st ∧
    (stopClosure (stopClosure st)).running = false ∧
    (stopClosure (stopClosure st)).wsClosed = true := by
  obtain ⟨r, p, c, cl⟩ := st
  dsimp only at hp hc
  subst hp hc
  simp [stopClosure]

/-- C9 witness: instantiates the double-stop claim on the state right after
a successful construction. -/
theorem stop_twice_is_noop_witness :
    stopClosure (stopClosure ⟨true, true, true, false⟩) = stopClosure ⟨true, true, true, false⟩ ∧
    (stopClosure (stopClosure ⟨true, true, true, false⟩)).running = false ∧
    (stopClosure (stopClosure ⟨true, true, true, false⟩)).wsClosed = true :=
  stop_twice_is_noop ⟨true, true, true, false⟩ rfl rfl

/-- C10: whenever `Subscribe` returns, the returned pair is a non-nil
unsubscribe handle and a nil error; when every dial attempt so far failed,
`Subscribe` has not returned (it blocks, retrying every 5 seconds, and
never surfaces a dial error). -/
theorem subscribe_returns_nil_error (dials : List Bool) :
    (∀ r, subscribeReturn dials = some r → r = (true, none)) ∧
    ((∀ d ∈ dials, d = false) → subscribeReturn dials = none) ∧
    subscribeRetrySeconds = 5 := by
  induction dials with
  | nil =>
    refine ⟨?_, fun _ => rfl, rfl⟩
    intro r h
    simp [subscribeReturn] at h
  | cons d rest ih =>
    cases d with
    | true =>
      refine ⟨?_, ?_, rfl⟩
      · intro r h
        simpa [subscribeReturn] using h.symm
      · intro hall
        exact absurd (hall true (List.mem_cons_self _ _)) (by decide)
    | false =>
      refine ⟨?_, ?_, rfl⟩
      · intro r h
        exact ih.1 r (by simpa [subscribeReturn] using h)
      · intro hall
        have : subscribeReturn rest = none :=
          ih.2.1 (fun x hx => hall x (List.mem_cons_of_mem _ hx))
        simpa [subscribeReturn] using this

/-- C10 witness: a trace whose first dial fails and second succeeds yields
the non-nil handle and nil error; a trace of only failed dials has not
returned. -/
theorem subscribe_returns_nil_error_witness :
    ((true, none) : Bool × Option ManipError) = (true, none) ∧
    subscribeReturn [false] = none :=
  ⟨(subscribe_returns_nil_error [false, true]).1 (true, none) rfl,
   (subscribe_returns_nil_error [false]).2.1 (by decide)⟩

end Manipwebsocket
